import Mathlib

/-!
Shallow embedding of the status-change detection and notification composition
engine of `src/services/app-status-service.ts` (class `AppStatusService`).

File I/O is modelled by an explicit `StatusFile` value (missing file,
unreadable/malformed content, or a parsed mapping); the stored mapping is a
function from application ids to optional status records.  Network effects
(the App Store Connect fetch and the webhook POST) are modelled as explicit
outcome parameters threaded through the per-application step, exactly
following the control flow of `checkAppStatus`.  The `dayjs(...).format`
call and `new Date().toISOString()` are ambient collaborators and appear as
explicit function/string parameters.
-/

namespace AppStatusTracker

/-- Embeds the TypeScript interface `AppStatus`: the unit of comparison and
persistence (`state`, optional `createdDate`, `versionString`, `releaseType`).

An optional TypeScript property is an `Option`. -/
structure AppStatus where
  state : String
  createdDate : Option String
  versionString : String
  releaseType : String
  deriving DecidableEq

/-- Embeds the TypeScript interface `AppConfig`. -/
structure AppConfig where
  name : String
  appId : String
  webhookUrl : String
  icon : String
  deriving DecidableEq

/-- Embeds `StatusStorage`: the JSON object mapping app ids to records.  A
key absent from the object reads as `none` (JS `undefined`). -/
def StatusStorage : Type := String → Option AppStatus

/-- The empty mapping, JSON text `\x7b\x7d`. -/
def emptyStorage : StatusStorage := fun _ => none

/-- State of the persisted file `status.json`: absent, present but
unreadable/unparseable, or present with a parsed mapping. -/
inductive StatusFile where
  | missing
  | corrupt
  | ok (storage : StatusStorage)

/-- Embeds `initializeStatusFile` (constructor side effect): if the file does
not exist, write the empty mapping; otherwise leave it alone. -/
def initializeStatusFile : StatusFile → StatusFile
  | .missing => .ok emptyStorage
  | f => f

/-- Embeds `loadPreviousStatuses`: `readFileSync` + `JSON.parse` inside
`try/catch`; a missing file (read throws) or malformed content (parse
throws) is caught, logged, and an empty mapping is returned.  Never throws
to its caller, which totality of this function reflects. -/
def loadPreviousStatuses : StatusFile → StatusStorage
  | .ok storage => storage
  | _ => emptyStorage

/-- Pointwise update of a storage mapping: `currentStatuses[appId] = status`. -/
def updateStorage (s : StatusStorage) (appId : String) (status : AppStatus) :
    StatusStorage :=
  fun k => if k = appId then some status else s k

/-- Embeds `savePreviousStatus`: reload the full mapping, overwrite the one
entry, write the whole mapping back (the write is modelled as always
succeeding; a write failure is caught and logged in the source and changes
no observable state of the model). -/
def savePreviousStatus (f : StatusFile) (appId : String) (status : AppStatus) :
    StatusFile :=
  .ok (updateStorage (loadPreviousStatuses f) appId status)

/-- Embeds `hasStatusChanged`: load the mapping; report a change when no
prior record exists, or when the prior record differs in `state` or in
`versionString`.  `releaseType` and `createdDate` are not consulted. -/
def hasStatusChanged (f : StatusFile) (appId : String)
    (currentStatus : AppStatus) : Bool :=
  match loadPreviousStatuses f appId with
  | none => true
  | some previousStatus =>
      previousStatus.state != currentStatus.state ||
      previousStatus.versionString != currentStatus.versionString

/-- Embeds `getStateEmoji`: switch over the lifecycle state with an explicit
default branch. -/
def getStateEmoji (state : String) : String :=
  match state with
  | "ACCEPTED" => "✅"
  | "DEVELOPER_REJECTED" => "🚫"
  | "IN_REVIEW" => "🔍"
  | "INVALID_BINARY" => "⚠️"
  | "METADATA_REJECTED" => "📝❌"
  | "PENDING_APPLE_RELEASE" => "⏳"
  | "PENDING_DEVELOPER_RELEASE" => "👨‍💻"
  | "PREPARE_FOR_SUBMISSION" => "📦"
  | "PROCESSING_FOR_DISTRIBUTION" => "⚙️"
  | "READY_FOR_DISTRIBUTION" => "🎉"
  | "READY_FOR_REVIEW" => "📤"
  | "REJECTED" => "❌"
  | "REPLACED_WITH_NEW_VERSION" => "🔄"
  | "WAITING_FOR_EXPORT_COMPLIANCE" => "📋"
  | "WAITING_FOR_REVIEW" => "⏳"
  | _ => "❓"

/-- Embeds `getStateMessage`: switch over the lifecycle state with an
explicit default branch. -/
def getStateMessage (state : String) : String :=
  match state with
  | "ACCEPTED" => "심사 승인"
  | "DEVELOPER_REJECTED" => "개발자에 의한 심사 취소"
  | "IN_REVIEW" => "심사 진행 중"
  | "INVALID_BINARY" => "바이너리 무효"
  | "METADATA_REJECTED" => "메타데이터 거절"
  | "PENDING_APPLE_RELEASE" => "애플 출시 대기 중"
  | "PENDING_DEVELOPER_RELEASE" => "심사 승인, 출시 대기 중"
  | "PREPARE_FOR_SUBMISSION" => "제출 준비 중"
  | "PROCESSING_FOR_DISTRIBUTION" => "배포 처리 중"
  | "READY_FOR_DISTRIBUTION" => "배포 완료"
  | "READY_FOR_REVIEW" => "심사 준비 완료"
  | "REJECTED" => "심사 거절"
  | "REPLACED_WITH_NEW_VERSION" => "새 버전으로 대체됨"
  | "WAITING_FOR_EXPORT_COMPLIANCE" => "수출 규정 검토 대기 중"
  | "WAITING_FOR_REVIEW" => "심사 대기 중"
  | _ => "알 수 없는 상태"

/-- Embeds `getStateColor`: switch with grouped cases and an explicit
default branch, returning the Discord embed color number. -/
def getStateColor (state : String) : Nat :=
  match state with
  | "ACCEPTED" | "READY_FOR_DISTRIBUTION" => 0x36a64f
  | "DEVELOPER_REJECTED" | "REJECTED" | "INVALID_BINARY"
  | "METADATA_REJECTED" => 0xdc3545
  | "IN_REVIEW" | "WAITING_FOR_REVIEW"
  | "WAITING_FOR_EXPORT_COMPLIANCE" => 0xffc107
  | "PENDING_APPLE_RELEASE" | "PENDING_DEVELOPER_RELEASE"
  | "PROCESSING_FOR_DISTRIBUTION" => 0x0088cc
  | "PREPARE_FOR_SUBMISSION" | "READY_FOR_REVIEW"
  | "REPLACED_WITH_NEW_VERSION" => 0x6f42c1
  | _ => 0x95a5a6

/-- Embeds `getReleaseTypeMessage`: switch over the release type; the
default branch echoes the raw value. -/
def getReleaseTypeMessage (releaseType : String) : String :=
  match releaseType with
  | "MANUAL" => "📤 수동 배포"
  | "AFTER_APPROVAL" => "🚀 승인 후 자동 배포"
  | "SCHEDULED" => "⏰ 예약 배포"
  | _ => releaseType ++ " 배포"

/-- The fifteen lifecycle states enumerated by the three lookup switches. -/
def knownStates : List String :=
  ["ACCEPTED", "DEVELOPER_REJECTED", "IN_REVIEW", "INVALID_BINARY",
   "METADATA_REJECTED", "PENDING_APPLE_RELEASE", "PENDING_DEVELOPER_RELEASE",
   "PREPARE_FOR_SUBMISSION", "PROCESSING_FOR_DISTRIBUTION",
   "READY_FOR_DISTRIBUTION", "READY_FOR_REVIEW", "REJECTED",
   "REPLACED_WITH_NEW_VERSION", "WAITING_FOR_EXPORT_COMPLIANCE",
   "WAITING_FOR_REVIEW"]

/-- The build-relevant lifecycle states: those for which `checkAppStatus`
appends the build number to the displayed version. -/
def buildRelevantStates : List String :=
  ["READY_FOR_DISTRIBUTION", "PENDING_DEVELOPER_RELEASE",
   "WAITING_FOR_REVIEW", "IN_REVIEW"]

/-- JavaScript string interpolation of a value of type `string | undefined`:
an absent value renders as the literal text `undefined`. -/
def jsInterpolate : Option String → String
  | some s => s
  | none => "undefined"

/-- Embeds one element of the `included` array of the App Store Connect
response that the build extraction consults: its `type`, `id`, and optional
`attributes.version`. -/
structure IncludedItem where
  itemType : String
  id : String
  version : Option String
  deriving DecidableEq

/-- Embeds the build-number extraction of `checkAppStatus` (the
`let buildNumber` block): when the latest version carries a build
relationship id and the response carries an `included` array, look up the
item with type `builds` and that id and take its `attributes.version`;
in every other case `buildNumber` stays `undefined`. -/
def extractBuildNumber (relationshipBuildId : Option String)
    (included : Option (List IncludedItem)) : Option String :=
  match relationshipBuildId, included with
  | some buildId, some items =>
      match items.find? (fun item => item.itemType == "builds" && item.id == buildId) with
      | some buildInfo => buildInfo.version
      | none => none
  | _, _ => none

/-- Embeds the title selection of `checkAppStatus`: `versionChanged` holds
when a prior record exists and its version string differs; `stateChanged`
holds when no prior record exists or the prior state differs; the title is
the both-changed, version-only, or state-only phrasing accordingly. -/
def titleText (name : String) (previousStatus : Option AppStatus)
    (currentStatus : AppStatus) : String :=
  let versionChanged :=
    match previousStatus with
    | some p => p.versionString != currentStatus.versionString
    | none => false
  let stateChanged :=
    match previousStatus with
    | some p => p.state != currentStatus.state
    | none => true
  if versionChanged && stateChanged then
    name ++ " 버전과 상태가 변경되었습니다!"
  else if versionChanged then
    name ++ " 버전이 변경되었습니다!"
  else
    name ++ " 상태가 변경되었습니다!"

/-- Embeds the version rendering of `checkAppStatus` (the
`let versionString` block): in the four build-relevant states the version is
rendered as the version string followed by the interpolated build number in
parentheses; otherwise the plain version string. -/
def composeVersionString (currentStatus : AppStatus)
    (buildNumber : Option String) : String :=
  if currentStatus.state == "READY_FOR_DISTRIBUTION" ||
     currentStatus.state == "PENDING_DEVELOPER_RELEASE" ||
     currentStatus.state == "WAITING_FOR_REVIEW" ||
     currentStatus.state == "IN_REVIEW" then
    currentStatus.versionString ++ " (" ++ jsInterpolate buildNumber ++ ")"
  else
    currentStatus.versionString

/-- Embeds one element of the local `fields` array of `checkAppStatus`
before it is mapped into the webhook shape. -/
structure Field where
  title : String
  value : String
  short : Bool
  deriving DecidableEq

/-- Embeds the `submittedDate` computation of `checkAppStatus`: the
`createdDate` run through the `dayjs` formatter (the formatter is the
parameter `fmtDate`), or the no-date text when absent. -/
def submittedDateText (fmtDate : String → String)
    (currentStatus : AppStatus) : String :=
  match currentStatus.createdDate with
  | some d => fmtDate d
  | none => "없음"

/-- Embeds the `fields` construction of `checkAppStatus`: the base array of
current state, current version, and release type, then a conditional
`push`: previous version and submission date when a prior record exists and
the version changed, the submission date alone otherwise. -/
def composeFields (fmtDate : String → String)
    (previousStatus : Option AppStatus) (currentStatus : AppStatus)
    (buildNumber : Option String) : List Field :=
  let submittedDate := submittedDateText fmtDate currentStatus
  let base : List Field :=
    [⟨"현재 상태",
      getStateEmoji currentStatus.state ++ " " ++
        getStateMessage currentStatus.state, true⟩,
     ⟨"현재 버전", composeVersionString currentStatus buildNumber, true⟩,
     ⟨"버전 출시 타입",
      getReleaseTypeMessage currentStatus.releaseType, true⟩]
  match previousStatus with
  | some p =>
      if p.versionString != currentStatus.versionString then
        base ++ [⟨"이전 버전", p.versionString, true⟩,
                 ⟨"제출 일시", submittedDate, true⟩]
      else
        base ++ [⟨"제출 일시", submittedDate, true⟩]
  | none => base ++ [⟨"제출 일시", submittedDate, true⟩]

/-- Embeds one element of the webhook `fields` array. -/
structure WebhookField where
  name : String
  value : String
  isInline : Bool
  deriving DecidableEq

/-- Embeds the single embed object of `webhookPayload`.  The `timestamp`
carries the `new Date().toISOString()` value supplied by the caller. -/
structure Embed where
  title : String
  color : Nat
  authorName : String
  authorIcon : String
  footerText : String
  footerIcon : String
  timestamp : String
  url : String
  fields : List WebhookField
  deriving DecidableEq

/-- Embeds the `webhookPayload` construction of `checkAppStatus` for one
application. -/
def composePayload (fmtDate : String → String) (now : String)
    (app : AppConfig) (previousStatus : Option AppStatus)
    (currentStatus : AppStatus) (buildNumber : Option String) : Embed :=
  ⟨titleText app.name previousStatus currentStatus,
   getStateColor currentStatus.state,
   app.name,
   app.icon,
   "App Store Connect",
   "https://developer.apple.com/assets/elements/icons/app-store-connect/app-store-connect-64x64.png",
   now,
   "https://appstoreconnect.apple.com/apps/" ++ app.appId ++ "/appstore",
   (composeFields fmtDate previousStatus currentStatus buildNumber).map
     (fun field => ⟨field.title, field.value, field.short⟩)⟩

/-- Outcome of the fetch phase of one loop iteration (token generation, the
GET request, the empty-data check, the IOS filter, and the build-number
extraction): either some step threw, or it produced the current status and
the extracted build number. -/
inductive FetchOutcome where
  | fetchError
  | fetched (currentStatus : AppStatus) (buildNumber : Option String)

/-- Embeds one iteration of the `for` loop of `checkAppStatus` for one
application.  On a fetch error the `catch` block logs and nothing is
persisted or posted.  On a successful fetch, when `hasStatusChanged` holds
the payload is composed and the POST attempted: a failed POST throws into
the `catch` block BEFORE the `savePreviousStatus` line runs, so the store
is updated only when delivery succeeded; when nothing changed, the record
is still re-saved.  Returns the new file state and the list of webhook
payloads whose delivery was attempted. -/
def checkOneApp (fmtDate : String → String) (now : String) (app : AppConfig)
    (fetch : FetchOutcome) (deliveryOk : Bool) (f : StatusFile) :
    StatusFile × List Embed :=
  match fetch with
  | .fetchError => (f, [])
  | .fetched currentStatus buildNumber =>
      if hasStatusChanged f app.appId currentStatus then
        let previousStatus := loadPreviousStatuses f app.appId
        let payload :=
          composePayload fmtDate now app previousStatus currentStatus buildNumber
        if deliveryOk then
          (savePreviousStatus f app.appId currentStatus, [payload])
        else
          (f, [payload])
      else
        (savePreviousStatus f app.appId currentStatus, [])

/-- Embeds the `for` loop of `checkAppStatus` over the configured
applications, threading the status file; each entry pairs an application
with the outcome of its fetch and of its delivery attempt.  Returns the
final file state and, per application in order, the payloads whose delivery
was attempted. -/
def checkAppStatus (fmtDate : String → String) (now : String) :
    List (AppConfig × FetchOutcome × Bool) → StatusFile →
    StatusFile × List (List Embed)
  | [], f => (f, [])
  | (app, fetch, deliveryOk) :: rest, f =>
      let step := checkOneApp fmtDate now app fetch deliveryOk f
      let restResult := checkAppStatus fmtDate now rest step.1
      (restResult.1, step.2 :: restResult.2)

/-- Associativity of string concatenation, used to normalize rendered
version strings. -/
theorem string_append_assoc (a b c : String) :
    a ++ b ++ c = a ++ (b ++ c) := by
  obtain ⟨la⟩ := a
  obtain ⟨lb⟩ := b
  obtain ⟨lc⟩ := c
  show String.mk (la ++ lb ++ lc) = String.mk (la ++ (lb ++ lc))
  rw [List.append_assoc]

/-- Claim C1: the change check returns true exactly when no prior record is
stored for the id, or the prior record differs in lifecycle state or in
version string; consequently a candidate agreeing with the stored record on
state and version string (whatever its releaseType, createdDate, or any
build data) is reported unchanged. -/
theorem hasStatusChanged_spec (f : StatusFile) (appId : String)
    (currentStatus : AppStatus) :
    (hasStatusChanged f appId currentStatus = true ↔
      loadPreviousStatuses f appId = none ∨
      ∃ p, loadPreviousStatuses f appId = some p ∧
        (p.state ≠ currentStatus.state ∨
         p.versionString ≠ currentStatus.versionString)) ∧
    (∀ p, loadPreviousStatuses f appId = some p →
      p.state = currentStatus.state →
      p.versionString = currentStatus.versionString →
      hasStatusChanged f appId currentStatus = false) := by
  unfold hasStatusChanged
  cases h : loadPreviousStatuses f appId with
  | none => simp [h]
  | some p =>
      constructor
      · simp [h, bne_iff_ne]
      · intro q hq hs hv
        injection hq with hpq
        subst hpq
        simp [hs, hv]

/-- Witness for C1: with a record stored for `a1`, a candidate equal in
state and version string but differing in createdDate and releaseType is
reported unchanged. -/
theorem hasStatusChanged_spec_witness :
    hasStatusChanged
      (StatusFile.ok (updateStorage emptyStorage "a1"
        ⟨"IN_REVIEW", some "2024-01-01", "1.0.0", "MANUAL"⟩))
      "a1" ⟨"IN_REVIEW", some "2024-02-02", "1.0.0", "SCHEDULED"⟩ = false :=
  (hasStatusChanged_spec
    (StatusFile.ok (updateStorage emptyStorage "a1"
      ⟨"IN_REVIEW", some "2024-01-01", "1.0.0", "MANUAL"⟩))
    "a1" ⟨"IN_REVIEW", some "2024-02-02", "1.0.0", "SCHEDULED"⟩).2
    ⟨"IN_REVIEW", some "2024-01-01", "1.0.0", "MANUAL"⟩ (by decide) rfl rfl

/-- Claim C8: loading never throws: a missing file reads as the empty
mapping (and construction initializes it to the empty mapping), malformed
content reads as the empty mapping, and a save performed on a corrupt file
succeeds and overwrites the file with a valid mapping containing exactly
the saved entry. -/
theorem store_fail_open :
    (∀ k, loadPreviousStatuses .missing k = none) ∧
    initializeStatusFile .missing = .ok emptyStorage ∧
    (∀ k, loadPreviousStatuses .corrupt k = none) ∧
    (∀ appId status,
      savePreviousStatus .corrupt appId status =
        .ok (updateStorage emptyStorage appId status) ∧
      loadPreviousStatuses (savePreviousStatus .corrupt appId status) appId =
        some status) := by
  refine ⟨fun k => rfl, rfl, fun k => rfl, fun appId status => ⟨rfl, ?_⟩⟩
  simp [savePreviousStatus, loadPreviousStatuses, updateStorage]

/-- Claim C4: in a build-relevant state the rendered version is the version
string followed by the build number in parentheses; in any other state it
is the plain version string, whatever the build number. -/
theorem version_build_rendering (state : String) (createdDate : Option String)
    (v rt buildNum : String) :
    (state ∈ buildRelevantStates →
      composeVersionString ⟨state, createdDate, v, rt⟩ (some buildNum) =
        v ++ " (" ++ buildNum ++ ")") ∧
    (state ∉ buildRelevantStates → ∀ b : Option String,
      composeVersionString ⟨state, createdDate, v, rt⟩ b = v) := by
  constructor
  · intro h
    simp only [buildRelevantStates, List.mem_cons, List.not_mem_nil,
      or_false] at h
    unfold composeVersionString jsInterpolate
    rcases h with h | h | h | h <;> subst h <;> simp
  · intro h b
    simp only [buildRelevantStates, List.mem_cons, List.not_mem_nil,
      or_false, not_or] at h
    unfold composeVersionString
    rw [if_neg]
    simp only [Bool.or_eq_true, beq_iff_eq, not_or]
    exact ⟨⟨⟨h.1, h.2.1⟩, h.2.2.1⟩, h.2.2.2⟩

/-- Witness for C4: `IN_REVIEW` renders version 1.2.0 with build 45 as
1.2.0 (45); `REJECTED` renders it as 1.2.0 even with a build present. -/
theorem version_build_rendering_witness :
    composeVersionString ⟨"IN_REVIEW", none, "1.2.0", "MANUAL"⟩ (some "45") =
      "1.2.0 (45)" ∧
    composeVersionString ⟨"REJECTED", none, "1.2.0", "MANUAL"⟩ (some "45") =
      "1.2.0" :=
  ⟨((version_build_rendering "IN_REVIEW" none "1.2.0" "MANUAL" "45").1
      (by decide)).trans (by decide),
   (version_build_rendering "REJECTED" none "1.2.0" "MANUAL" "45").2
      (by decide) (some "45")⟩

/-- Claim C5: for every lifecycle-state string, known or unknown, the emoji
lookup and the label lookup return a non-empty string and the color lookup
a positive color number; a string outside the closed enumeration lands in
the explicit default branch of each lookup. -/
theorem state_lookup_total (s : String) :
    getStateEmoji s ≠ "" ∧
    getStateMessage s ≠ "" ∧
    0 < getStateColor s ∧
    (s ∉ knownStates →
      getStateEmoji s = "❓" ∧
      getStateMessage s = "알 수 없는 상태" ∧
      getStateColor s = 0x95a5a6) := by
  refine ⟨?_, ?_, ?_, fun h => ⟨?_, ?_, ?_⟩⟩
  · unfold getStateEmoji; split <;> decide
  · unfold getStateMessage; split <;> decide
  · unfold getStateColor; split <;> decide
  · unfold getStateEmoji; split <;> simp_all [knownStates]
  · unfold getStateMessage; split <;> simp_all [knownStates]
  · unfold getStateColor; split <;> simp_all [knownStates]

/-- Witness for C5: an arbitrary unknown state string hits the default
branches: a non-empty fallback emoji and label and the neutral color. -/
theorem state_lookup_total_witness :
    getStateEmoji "SOME_FUTURE_STATE" ≠ "" ∧
    getStateEmoji "SOME_FUTURE_STATE" = "❓" ∧
    getStateMessage "SOME_FUTURE_STATE" = "알 수 없는 상태" ∧
    getStateColor "SOME_FUTURE_STATE" = 0x95a5a6 := by
  have h := state_lookup_total "SOME_FUTURE_STATE"
  have hd := h.2.2.2 (by decide)
  exact ⟨h.1, hd.1, hd.2.1, hd.2.2⟩

/-- Claim C6: with a prior record, a version-only difference selects the
version-changed title, a state-only difference the state-changed title, and
a difference in both the both-changed title; with no prior record the title
is the state-changed one. -/
theorem title_selection (name : String) (p currentStatus : AppStatus) :
    (p.versionString ≠ currentStatus.versionString →
      p.state = currentStatus.state →
      titleText name (some p) currentStatus =
        name ++ " 버전이 변경되었습니다!") ∧
    (p.state ≠ currentStatus.state →
      p.versionString = currentStatus.versionString →
      titleText name (some p) currentStatus =
        name ++ " 상태가 변경되었습니다!") ∧
    (p.versionString ≠ currentStatus.versionString →
      p.state ≠ currentStatus.state →
      titleText name (some p) currentStatus =
        name ++ " 버전과 상태가 변경되었습니다!") ∧
    titleText name none currentStatus = name ++ " 상태가 변경되었습니다!" := by
  refine ⟨fun hv hs => by simp [titleText, hv, hs],
          fun hs hv => by simp [titleText, hv, hs],
          fun hv hs => by simp [titleText, hv, hs],
          by simp [titleText]⟩

/-- Witness for C6: concrete prior/current pairs produce the version-only,
state-only, and both-changed titles, and a missing prior the state title. -/
theorem title_selection_witness :
    titleText "GSM" (some ⟨"IN_REVIEW", none, "1.0", "MANUAL"⟩)
      ⟨"IN_REVIEW", none, "1.1", "MANUAL"⟩ =
      "GSM 버전이 변경되었습니다!" ∧
    titleText "GSM" (some ⟨"IN_REVIEW", none, "1.0", "MANUAL"⟩)
      ⟨"ACCEPTED", none, "1.0", "MANUAL"⟩ =
      "GSM 상태가 변경되었습니다!" ∧
    titleText "GSM" (some ⟨"IN_REVIEW", none, "1.0", "MANUAL"⟩)
      ⟨"ACCEPTED", none, "1.1", "MANUAL"⟩ =
      "GSM 버전과 상태가 변경되었습니다!" ∧
    titleText "GSM" none ⟨"IN_REVIEW", none, "1.0", "MANUAL"⟩ =
      "GSM 상태가 변경되었습니다!" := by
  have h1 := (title_selection "GSM" ⟨"IN_REVIEW", none, "1.0", "MANUAL"⟩
    ⟨"IN_REVIEW", none, "1.1", "MANUAL"⟩).1 (by decide) rfl
  have h2 := (title_selection "GSM" ⟨"IN_REVIEW", none, "1.0", "MANUAL"⟩
    ⟨"ACCEPTED", none, "1.0", "MANUAL"⟩).2.1 (by decide) rfl
  have h3 := (title_selection "GSM" ⟨"IN_REVIEW", none, "1.0", "MANUAL"⟩
    ⟨"ACCEPTED", none, "1.1", "MANUAL"⟩).2.2.1 (by decide) (by decide)
  have h4 := (title_selection "GSM" ⟨"IN_REVIEW", none, "1.0", "MANUAL"⟩
    ⟨"IN_REVIEW", none, "1.0", "MANUAL"⟩).2.2.2
  exact ⟨h1.trans (by decide), h2.trans (by decide), h3.trans (by decide),
    h4.trans (by decide)⟩

/-- Claim C7: the composed field list is, in this fixed order, current
state (emoji plus label), current version, release-type label, and then,
when a prior record existed and the version changed, previous version
followed by the submission timestamp — five fields — and otherwise the
submission timestamp alone — four fields. -/
theorem fields_structure (fmtDate : String → String)
    (previousStatus : Option AppStatus) (currentStatus : AppStatus)
    (bn : Option String) :
    (∀ p, previousStatus = some p →
      p.versionString ≠ currentStatus.versionString →
      composeFields fmtDate previousStatus currentStatus bn =
        [⟨"현재 상태",
          getStateEmoji currentStatus.state ++ " " ++
            getStateMessage currentStatus.state, true⟩,
         ⟨"현재 버전", composeVersionString currentStatus bn, true⟩,
         ⟨"버전 출시 타입",
          getReleaseTypeMessage currentStatus.releaseType, true⟩,
         ⟨"이전 버전", p.versionString, true⟩,
         ⟨"제출 일시", submittedDateText fmtDate currentStatus, true⟩] ∧
      (composeFields fmtDate previousStatus currentStatus bn).length = 5) ∧
    ((∀ p, previousStatus = some p →
        p.versionString = currentStatus.versionString) →
      composeFields fmtDate previousStatus currentStatus bn =
        [⟨"현재 상태",
          getStateEmoji currentStatus.state ++ " " ++
            getStateMessage currentStatus.state, true⟩,
         ⟨"현재 버전", composeVersionString currentStatus bn, true⟩,
         ⟨"버전 출시 타입",
          getReleaseTypeMessage currentStatus.releaseType, true⟩,
         ⟨"제출 일시", submittedDateText fmtDate currentStatus, true⟩] ∧
      (composeFields fmtDate previousStatus currentStatus bn).length = 4) := by
  constructor
  · intro p hp hv
    subst hp
    constructor
    · simp [composeFields, hv]
    · simp [composeFields, hv]
  · intro hsame
    cases hps : previousStatus with
    | none =>
        constructor
        · simp [composeFields]
        · simp [composeFields]
    | some p =>
        have hv := hsame p hps
        constructor
        · simp [composeFields, hv]
        · simp [composeFields, hv]

/-- Witness for C7: a version change yields the five-field list ending in
previous version then submission timestamp; an unchanged version yields
the four-field list. -/
theorem fields_structure_witness :
    (composeFields (fun d => d)
      (some ⟨"IN_REVIEW", none, "1.0", "MANUAL"⟩)
      ⟨"ACCEPTED", some "2024-03-03", "1.1", "MANUAL"⟩ none).length = 5 ∧
    (composeFields (fun d => d)
      (some ⟨"IN_REVIEW", none, "1.0", "MANUAL"⟩)
      ⟨"ACCEPTED", some "2024-03-03", "1.0", "MANUAL"⟩ none).length = 4 ∧
    (composeFields (fun d => d)
      (some ⟨"IN_REVIEW", none, "1.0", "MANUAL"⟩)
      ⟨"ACCEPTED", some "2024-03-03", "1.1", "MANUAL"⟩ none).map Field.title =
      ["현재 상태", "현재 버전", "버전 출시 타입", "이전 버전",
       "제출 일시"] := by
  have h5 := (fields_structure (fun d => d)
    (some ⟨"IN_REVIEW", none, "1.0", "MANUAL"⟩)
    ⟨"ACCEPTED", some "2024-03-03", "1.1", "MANUAL"⟩ none).1
    ⟨"IN_REVIEW", none, "1.0", "MANUAL"⟩ rfl (by decide)
  have h4 := (fields_structure (fun d => d)
    (some ⟨"IN_REVIEW", none, "1.0", "MANUAL"⟩)
    ⟨"ACCEPTED", some "2024-03-03", "1.0", "MANUAL"⟩ none).2
    (fun p hp => by injection hp with h; rw [← h])
  refine ⟨h5.2, h4.2, ?_⟩
  rw [h5.1]
  rfl

/-- Claim C10: when the fetched data carries no build linkage the extracted
build number is absent, and in a build-relevant state the rendered version
is the version string followed by the literal text `(undefined)`. -/
theorem undefined_build_rendering (currentStatus : AppStatus)
    (included : Option (List IncludedItem)) :
    currentStatus.state ∈ buildRelevantStates →
    extractBuildNumber none included = none ∧
    composeVersionString currentStatus (extractBuildNumber none included) =
      currentStatus.versionString ++ " (undefined)" := by
  intro h
  have hnone : extractBuildNumber none included = none := by
    cases included <;> rfl
  refine ⟨hnone, ?_⟩
  rw [hnone]
  simp only [buildRelevantStates, List.mem_cons, List.not_mem_nil,
    or_false] at h
  unfold composeVersionString jsInterpolate
  have hlit : " (" ++ ("undefined" ++ ")") = " (undefined)" := by decide
  have hrw : currentStatus.versionString ++ " (" ++ "undefined" ++ ")" =
      currentStatus.versionString ++ " (undefined)" := by
    rw [string_append_assoc, string_append_assoc, hlit]
  rcases h with h | h | h | h <;> rw [if_pos (by simp [h])] <;> exact hrw

/-- Witness for C10: a response with no build relationship in state
`WAITING_FOR_REVIEW` renders version 2.0.0 as the text
2.0.0 (undefined). -/
theorem undefined_build_rendering_witness :
    composeVersionString ⟨"WAITING_FOR_REVIEW", none, "2.0.0", "MANUAL"⟩
      (extractBuildNumber none none) = "2.0.0 (undefined)" :=
  ((undefined_build_rendering
    ⟨"WAITING_FOR_REVIEW", none, "2.0.0", "MANUAL"⟩ none (by decide)).2).trans
    (by decide)

/-- Claim C3: when no record is stored for the application, the change
check reports a change and the iteration composes and attempts delivery of
exactly one notification (the payload composed against an absent prior
record), whatever the delivery outcome. -/
theorem first_seen_notifies (fmtDate : String → String) (now : String)
    (app : AppConfig) (currentStatus : AppStatus) (bn : Option String)
    (deliveryOk : Bool) (f : StatusFile)
    (h : loadPreviousStatuses f app.appId = none) :
    hasStatusChanged f app.appId currentStatus = true ∧
    (checkOneApp fmtDate now app (.fetched currentStatus bn) deliveryOk f).2 =
      [composePayload fmtDate now app none currentStatus bn] := by
  have hch : hasStatusChanged f app.appId currentStatus = true := by
    unfold hasStatusChanged
    rw [h]
  refine ⟨hch, ?_⟩
  cases deliveryOk <;> simp [checkOneApp, hch, h]

/-- Witness for C3: with an empty store, a first observation of app `a1`
yields the changed verdict and exactly one attempted notification. -/
theorem first_seen_notifies_witness :
    hasStatusChanged (StatusFile.ok emptyStorage) "a1"
      ⟨"IN_REVIEW", none, "1.0", "MANUAL"⟩ = true ∧
    (checkOneApp (fun d => d) "t0" ⟨"GSM", "a1", "https://hook", "i"⟩
      (.fetched ⟨"IN_REVIEW", none, "1.0", "MANUAL"⟩ (some "7")) true
      (StatusFile.ok emptyStorage)).2.length = 1 := by
  have h := first_seen_notifies (fun d => d) "t0"
    ⟨"GSM", "a1", "https://hook", "i"⟩ ⟨"IN_REVIEW", none, "1.0", "MANUAL"⟩
    (some "7") true (StatusFile.ok emptyStorage) rfl
  exact ⟨h.1, by rw [h.2]; rfl⟩

/-- Claim C9: a fetch failure is absorbed inside the loop body — that
iteration changes nothing and posts nothing; a save rewrites only its own
application's entry and preserves every other entry; and the loop produces
one result per configured application, so no single failure aborts the
batch. -/
theorem per_app_isolation :
    (∀ (fmtDate : String → String) (now : String) (app : AppConfig)
        (deliveryOk : Bool) (f : StatusFile),
      checkOneApp fmtDate now app .fetchError deliveryOk f = (f, [])) ∧
    (∀ (f : StatusFile) (appId : String) (r : AppStatus) (k : String),
      k ≠ appId →
      loadPreviousStatuses (savePreviousStatus f appId r) k =
        loadPreviousStatuses f k) ∧
    (∀ (fmtDate : String → String) (now : String)
        (items : List (AppConfig × FetchOutcome × Bool)) (f : StatusFile),
      (checkAppStatus fmtDate now items f).2.length = items.length) := by
  refine ⟨fun fmtDate now app deliveryOk f => rfl, ?_, ?_⟩
  · intro f appId r k hk
    simp [savePreviousStatus, loadPreviousStatuses, updateStorage, hk]
  · intro fmtDate now items
    induction items with
    | nil => intro f; rfl
    | cons hd tl ih =>
        intro f
        obtain ⟨app, fetch, deliveryOk⟩ := hd
        simp [checkAppStatus, ih]

/-- Witness for C9: a failing fetch for one app leaves the store as it was,
a save under key `a1` leaves key `b2` untouched, and a two-application
batch whose first fetch fails still produces two per-app results. -/
theorem per_app_isolation_witness :
    checkOneApp (fun d => d) "t0" ⟨"GSM", "a1", "https://hook", "i"⟩
      .fetchError true (StatusFile.ok emptyStorage) =
      (StatusFile.ok emptyStorage, []) ∧
    loadPreviousStatuses
      (savePreviousStatus (StatusFile.ok emptyStorage) "a1"
        ⟨"IN_REVIEW", none, "1.0", "MANUAL"⟩) "b2" = none ∧
    (checkAppStatus (fun d => d) "t0"
      [(⟨"GSM", "a1", "https://hook", "i"⟩, .fetchError, true),
       (⟨"MSG", "b2", "https://hook2", "j"⟩,
        .fetched ⟨"IN_REVIEW", none, "1.0", "MANUAL"⟩ none, true)]
      (StatusFile.ok emptyStorage)).2.length = 2 := by
  refine ⟨per_app_isolation.1 (fun d => d) "t0"
      ⟨"GSM", "a1", "https://hook", "i"⟩ true (StatusFile.ok emptyStorage),
    ?_, ?_⟩
  · have h := per_app_isolation.2.1 (StatusFile.ok emptyStorage) "a1"
      ⟨"IN_REVIEW", none, "1.0", "MANUAL"⟩ "b2" (by decide)
    exact h.trans rfl
  · exact per_app_isolation.2.2 (fun d => d) "t0"
      [(⟨"GSM", "a1", "https://hook", "i"⟩, .fetchError, true),
       (⟨"MSG", "b2", "https://hook2", "j"⟩,
        .fetched ⟨"IN_REVIEW", none, "1.0", "MANUAL"⟩ none, true)]
      (StatusFile.ok emptyStorage)

/-- Counterexample to claim C2: with an empty store, a successful fetch of
app `a1`, a detected change, and a failed webhook POST, the store entry for
`a1` is still empty afterwards — the POST throws into the catch block
before the save line runs — and a subsequent run fetching the same record
attempts another notification. -/
theorem persist_after_failed_delivery_cex :
    loadPreviousStatuses
      ((checkOneApp (fun d => d) "t0" ⟨"GSM", "a1", "https://hook", "i"⟩
          (.fetched ⟨"IN_REVIEW", none, "1.0.0", "MANUAL"⟩ none) false
          (StatusFile.ok emptyStorage)).1) "a1" = none ∧
    ((checkOneApp (fun d => d) "t1" ⟨"GSM", "a1", "https://hook", "i"⟩
        (.fetched ⟨"IN_REVIEW", none, "1.0.0", "MANUAL"⟩ none) true
        ((checkOneApp (fun d => d) "t0" ⟨"GSM", "a1", "https://hook", "i"⟩
            (.fetched ⟨"IN_REVIEW", none, "1.0.0", "MANUAL"⟩ none) false
            (StatusFile.ok emptyStorage)).1)).2).length = 1 := by
  constructor <;> rfl

/-- Claim C2 as amended: when a change is detected but the delivery POST
fails, the store is left unchanged (the new record is NOT persisted) while
exactly one delivery was attempted, and a subsequent run fetching the same
record detects the change again and attempts another notification. -/
theorem delivery_failure_no_persist (fmtDate : String → String)
    (now later : String) (app : AppConfig) (currentStatus : AppStatus)
    (bn bn2 : Option String) (retryDeliveryOk : Bool) (f : StatusFile)
    (h : hasStatusChanged f app.appId currentStatus = true) :
    (checkOneApp fmtDate now app (.fetched currentStatus bn) false f).1 = f ∧
    (checkOneApp fmtDate now app
      (.fetched currentStatus bn) false f).2.length = 1 ∧
    ((checkOneApp fmtDate later app (.fetched currentStatus bn2)
        retryDeliveryOk
        ((checkOneApp fmtDate now app
          (.fetched currentStatus bn) false f).1)).2).length = 1 := by
  have hstep :
      (checkOneApp fmtDate now app (.fetched currentStatus bn) false f) =
        (f, [composePayload fmtDate now app (loadPreviousStatuses f app.appId)
          currentStatus bn]) := by
    simp [checkOneApp, h]
  refine ⟨by rw [hstep], by rw [hstep]; rfl, ?_⟩
  rw [hstep]
  cases retryDeliveryOk <;> simp [checkOneApp, h]

/-- Witness for C2 as amended: concrete failed delivery leaves the store
unchanged and the next run attempts one more notification. -/
theorem delivery_failure_no_persist_witness :
    (checkOneApp (fun d => d) "t0" ⟨"GSM", "a1", "https://hook", "i"⟩
      (.fetched ⟨"IN_REVIEW", none, "1.0.0", "MANUAL"⟩ none) false
      (StatusFile.ok emptyStorage)).1 = StatusFile.ok emptyStorage ∧
    ((checkOneApp (fun d => d) "t1" ⟨"GSM", "a1", "https://hook", "i"⟩
        (.fetched ⟨"IN_REVIEW", none, "1.0.0", "MANUAL"⟩ none) true
        ((checkOneApp (fun d => d) "t0" ⟨"GSM", "a1", "https://hook", "i"⟩
            (.fetched ⟨"IN_REVIEW", none, "1.0.0", "MANUAL"⟩ none) false
            (StatusFile.ok emptyStorage)).1)).2).length = 1 := by
  have h := delivery_failure_no_persist (fun d => d) "t0" "t1"
    ⟨"GSM", "a1", "https://hook", "i"⟩ ⟨"IN_REVIEW", none, "1.0.0", "MANUAL"⟩
    none none true (StatusFile.ok emptyStorage) rfl
  exact ⟨h.1, h.2.2⟩

end AppStatusTracker
